import Mathlib

/-!
Verification of the perpetualx record-management application.

The development shallowly embeds the Django views and models of the
repository: records become Lean structures, the database becomes an
explicit `Db` value threaded through operations, and each view function
becomes a pure function from the database (plus request data) to the new
database and a response/message value.  Machine-level concerns (HTTP,
sessions, templates) are out of scope; the embedded functions follow the
control flow of the Python source line by line.
-/

namespace Perpetualx

/-- A dynamically typed cell/field value, as stored by the Django ORM:
a string, an integer, a date (proleptic Gregorian ordinal, as in Python's
date.toordinal), or NULL/None. -/
inductive Value
  | vnone
  | vstr (s : String)
  | vint (n : Int)
  | vdate (d : Int)
deriving DecidableEq, Repr

/-- Proleptic Gregorian ordinal of 1900-01-01 (Python
datetime.date(1900, 1, 1).toordinal()), the MinValueValidator bound on
Child.date_of_birth in backend/apps/main/models.py. -/
def ordinal1900 : Int := 693596

/-- The Child record fields of backend/apps/main/models.py (audit
timestamps omitted).  Fields are dynamically typed because the bulk
importer stores raw spreadsheet cell values without coercion or
validation. -/
structure ChildData where
  full_name : Value
  preferred_name : Value
  residence : Value
  district : Value
  tribe : Value
  gender : Value
  date_of_birth : Value
  weight : Value
  height : Value
  aspiration : Value
  c_interest : Value
  is_child_in_school : Value
  is_sponsored : Value
  father_name : Value
  is_father_alive : Value
  father_description : Value
  mother_name : Value
  is_mother_alive : Value
  mother_description : Value
  guardian : Value
  guardian_contact : Value
  relationship_with_guardian : Value
  siblings : Value
  background_info : Value
  health_status : Value
  responsibility : Value
  relationship_with_christ : Value
  religion : Value
  prayer_request : Value
  year_enrolled : Value
  is_departed : Value
  staff_comment : Value
  compiled_by : Value
deriving DecidableEq, Repr

/-- A ChildData with every field NULL; used as a base for building
concrete records. -/
def blankChild : ChildData :=
  { full_name := .vnone, preferred_name := .vnone, residence := .vnone
    district := .vnone, tribe := .vnone, gender := .vnone
    date_of_birth := .vnone, weight := .vnone, height := .vnone
    aspiration := .vnone, c_interest := .vnone, is_child_in_school := .vnone
    is_sponsored := .vnone, father_name := .vnone, is_father_alive := .vnone
    father_description := .vnone, mother_name := .vnone, is_mother_alive := .vnone
    mother_description := .vnone, guardian := .vnone, guardian_contact := .vnone
    relationship_with_guardian := .vnone, siblings := .vnone, background_info := .vnone
    health_status := .vnone, responsibility := .vnone, relationship_with_christ := .vnone
    religion := .vnone, prayer_request := .vnone, year_enrolled := .vnone
    is_departed := .vnone, staff_comment := .vnone, compiled_by := .vnone }

/-- A stored Child row: primary key plus field data. -/
structure Child where
  id : Nat
  data : ChildData
deriving DecidableEq, Repr

/-- ChildProfilePicture row (backend/apps/main/models.py): one-to-one to
Child with on_delete=CASCADE. -/
structure ChildProfilePicture where
  id : Nat
  child : Nat
  picture : String
deriving DecidableEq, Repr

/-- ChildProgress row (backend/apps/main/models.py): foreign key to Child
with on_delete=CASCADE. -/
structure ChildProgress where
  id : Nat
  child : Nat
deriving DecidableEq, Repr

/-- Modelled from the spec: the Sponsor entity (apps/sponsor/models.py is
not part of the sources); identity fields plus the "Yes"/"No" departure
flag, exactly the fields the views in apps/sponsor/views.py read. -/
structure Sponsor where
  id : Nat
  first_name : String
  last_name : String
  is_departed : String
deriving DecidableEq, Repr

/-- Modelled from the spec: the ChildSponsorship link entity
(apps/sponsor/models.py is not part of the sources) connecting one
Sponsor to one Child, carrying sponsorship type and start date. -/
structure ChildSponsorship where
  id : Nat
  sponsor : Nat
  child : Nat
  sponsorship_type : Value
  start_date : Value
deriving DecidableEq, Repr

/-- Modelled from the spec: the Policy entity (apps/users/models.py is
not part of the sources): content plus the boolean is_valid flag, which
starts false. -/
structure Policy where
  id : Nat
  content : String
  is_valid : Bool
deriving DecidableEq, Repr

/-- Modelled from the spec: the PolicyRead acknowledgement entity
(apps/users/models.py is not part of the sources): a (user, policy)
pair. -/
structure PolicyRead where
  user : Nat
  policy : Nat
deriving DecidableEq, Repr

/-- The relational store the operations act on. -/
structure Db where
  children : List Child
  nextChildId : Nat
  pictures : List ChildProfilePicture
  progresses : List ChildProgress
  sponsors : List Sponsor
  sponsorships : List ChildSponsorship
  nextSponsorshipId : Nat
  policies : List Policy
  policyReads : List PolicyRead
deriving DecidableEq, Repr

/-- The empty database. -/
def Db.empty : Db :=
  { children := [], nextChildId := 1, pictures := [], progresses := []
    sponsors := [], sponsorships := [], nextSponsorshipId := 1
    policies := [], policyReads := [] }

/-- The errors the storage layer raises: Model.objects.get on a missing
id raises DoesNotExist; an INSERT that writes NULL into a NOT NULL
column raises IntegrityError. -/
inductive DbError
  | doesNotExist
  | integrityError
deriving DecidableEq, Repr

/-- Whether the data populates every Child column that is NOT NULL at
the database level: exactly the fields of backend/apps/main/models.py
declared without null=True (full_name, gender, is_child_in_school,
is_sponsored, is_father_alive, is_mother_alive, year_enrolled,
is_departed). -/
def childNotNullOk (d : ChildData) : Bool :=
  !(d.full_name == .vnone) && !(d.gender == .vnone) &&
  !(d.is_child_in_school == .vnone) && !(d.is_sponsored == .vnone) &&
  !(d.is_father_alive == .vnone) && !(d.is_mother_alive == .vnone) &&
  !(d.year_enrolled == .vnone) && !(d.is_departed == .vnone)

/-- The successful INSERT: append a new row with the next primary
key. -/
def Db.appendChild (db : Db) (d : ChildData) : Db :=
  { db with children := db.children ++ [{ id := db.nextChildId, data := d }]
            nextChildId := db.nextChildId + 1 }

/-- Child.objects.create: INSERT the row without running the declared
validators, raising IntegrityError when a NOT NULL column receives
NULL. -/
def Db.createChild (db : Db) (d : ChildData) : Except DbError Db :=
  if childNotNullOk d then .ok (db.appendChild d) else .error .integrityError

/-! ## Query helpers: ordering, search, pagination -/

/-- Insert into a list sorted by the given key (helper for orderBy). -/
def insertLe (key : α → Nat) (c : α) : List α → List α
  | [] => [c]
  | d :: ds => if key c ≤ key d then c :: d :: ds else d :: insertLe key c ds

/-- The ORM order_by: sort ascending by an integer key (insertion sort). -/
def orderBy (key : α → Nat) : List α → List α
  | [] => []
  | c :: cs => insertLe key c (orderBy key cs)

/-- Whether the first list is a leading segment of the second. -/
def leadsList : List Char → List Char → Bool
  | [], _ => true
  | _ :: _, [] => false
  | a :: as, b :: bs => a == b && leadsList as bs

/-- Whether the first list occurs as a contiguous segment of the
second. -/
def containsSeg (needle : List Char) : List Char → Bool
  | [] => needle.isEmpty
  | c :: t => leadsList needle (c :: t) || containsSeg needle t

/-- The ORM icontains lookup: case-insensitive substring match.  NULL
never matches. -/
def icontains (hay : Value) (q : String) : Bool :=
  match hay with
  | .vstr s => containsSeg q.toLower.data s.toLower.data
  | _ => false

/-- icontains on a plain string column. -/
def icontainsStr (hay : String) (q : String) : Bool :=
  containsSeg q.toLower.data hay.toLower.data

/-- The page query parameter as the views receive it: absent,
non-numeric, or an integer. -/
inductive PageParam
  | missing
  | nonNumeric
  | numeric (k : Int)
deriving DecidableEq, Repr

/-- django.core.paginator.Paginator.num_pages with the default settings
(orphans = 0, allow_empty_first_page = true): at least one page, else the
ceiling of count / per. -/
def numPages (per count : Nat) : Nat :=
  if count = 0 then 1 else (count + per - 1) / per

/-- The page number each view ends up displaying: the try/except around
paginator.page in the views turns PageNotAnInteger (missing or
non-numeric token) into page 1 and EmptyPage (number < 1 or past the last
page) into the last page. -/
def resolvePage (per count : Nat) : PageParam → Nat
  | .missing => 1
  | .nonNumeric => 1
  | .numeric k =>
      if k < 1 then numPages per count
      else if (numPages per count : Int) < k then numPages per count
      else k.toNat

/-- The records shown on the resolved page. -/
def paginate (per : Nat) (l : List α) (page : PageParam) : List α :=
  (l.drop ((resolvePage per l.length page - 1) * per)).take per

/-! ## Child list / create / delete (backend/apps/main/views.py) -/

/-- The child_list queryset: all children ordered by id, with the
optional full_name icontains search (an empty search string is falsy in
Python and applies no filter). -/
def childQueryset (db : Db) (search : Option String) : List Child :=
  let base := orderBy (fun c => c.id) db.children
  match search with
  | none => base
  | some q => if q == "" then base else base.filter (fun c => icontains c.data.full_name q)

/-- child_list: the page of child records rendered for the request
(page size 20). -/
def child_list (db : Db) (search : Option String) (page : PageParam) : List Child :=
  paginate 20 (childQueryset db search) page

/-! ### Field validators declared in backend/apps/main/models.py -/

/-- ASCII letter, the character class [A-Za-z] of the full_name regex. -/
def isAsciiLetter (c : Char) : Bool :=
  ('A' ≤ c && c ≤ 'Z') || ('a' ≤ c && c ≤ 'z')

/-- The characters Python's regex \s matches (ASCII range). -/
def isPySpace (c : Char) : Bool :=
  c = ' ' || c = '\t' || c = '\n' || c = '\r' || c = '\x0b' || c = '\x0c'

/-- Acceptor state for the full_name regex given in models.py. -/
inductive NameState
  | expectFirst
  | inWord
  | afterGap
deriving DecidableEq, Repr

/-- One step of the regex acceptor for
[A-Za-z]+(?:\s[A-Za-z]+)* . -/
def nameStep : NameState → Char → Option NameState
  | .expectFirst, c => if isAsciiLetter c then some .inWord else none
  | .inWord, c =>
      if isAsciiLetter c then some .inWord
      else if isPySpace c then some .afterGap else none
  | .afterGap, c => if isAsciiLetter c then some .inWord else none

/-- Run the acceptor over a character list. -/
def nameRun : NameState → List Char → Option NameState
  | s, [] => some s
  | s, c :: cs =>
      match nameStep s c with
      | none => none
      | some s' => nameRun s' cs

/-- Python re.search of the anchored regex
r"^[A-Za-z]+(?:\s[A-Za-z]+)*$" on s ($ also matches just before a single
trailing newline, as in Python). -/
def fullNameMatches (s : String) : Bool :=
  nameRun .expectFirst s.data == some .inWord
  || (s.data.getLast? == some '\n' && nameRun .expectFirst s.data.dropLast == some .inWord)

/-- full_name: required CharField(max_length 50) with the letters/spaces
RegexValidator. -/
def fullNameOk : Value → Bool
  | .vstr s => fullNameMatches s && s.length ≤ 50
  | _ => false

/-- Closed-set choice field; required means NULL/blank is rejected. -/
def choiceOk (opts : List String) (required : Bool) : Value → Bool
  | .vnone => !required
  | .vstr s => opts.contains s
  | _ => false

/-- date_of_birth: nullable, bounded by MinValueValidator(1900-01-01) and
MaxValueValidator(date.today()), today being fixed when the model module
is imported. -/
def dobOk (today : Int) : Value → Bool
  | .vnone => true
  | .vdate d => ordinal1900 ≤ d && d ≤ today
  | _ => false

/-- height: nullable, MinValueValidator 1 and MaxValueValidator 100. -/
def heightOk : Value → Bool
  | .vnone => true
  | .vint n => 1 ≤ n && n ≤ 100
  | _ => false

/-- year_enrolled: required IntegerField with MinValueValidator 2013 and
MaxValueValidator YEAR_MAX, where YEAR_MAX is current_year() evaluated
once when the model module loads. -/
def yearOk (yearMax : Int) : Value → Bool
  | .vint n => 2013 ≤ n && n ≤ yearMax
  | _ => false

/-- Modelled from the spec: ChildForm (apps' forms.py is not part of the
sources) is the model form over Child, so is_valid() checks the field
constraints declared in backend/apps/main/models.py and collects the
names of the failing fields. -/
def childFieldErrors (today yearMax : Int) (d : ChildData) : List String :=
  (if fullNameOk d.full_name then [] else ["full_name"]) ++
  (if choiceOk ["Male", "Female"] true d.gender then [] else ["gender"]) ++
  (if dobOk today d.date_of_birth then [] else ["date_of_birth"]) ++
  (if heightOk d.height then [] else ["height"]) ++
  (if choiceOk ["Yes", "No"] true d.is_child_in_school then [] else ["is_child_in_school"]) ++
  (if choiceOk ["Yes", "No"] true d.is_sponsored then [] else ["is_sponsored"]) ++
  (if choiceOk ["Yes", "No"] true d.is_father_alive then [] else ["is_father_alive"]) ++
  (if choiceOk ["Yes", "No"] true d.is_mother_alive then [] else ["is_mother_alive"]) ++
  (if choiceOk ["Born-again Christian", "Anglican", "Catholic", "Muslim"] false d.religion
     then [] else ["religion"]) ++
  (if yearOk yearMax d.year_enrolled then [] else ["year_enrolled"]) ++
  (if choiceOk ["Yes", "No"] true d.is_departed then [] else ["is_departed"])

/-- Outcome of register_child. -/
inductive RegResult
  | saved
  | saveError
  | formErrors (fields : List String)
deriving DecidableEq, Repr

/-- register_child (POST branch): save the record only when the form is
valid; otherwise re-render with the field errors and write nothing.  A
valid form populates every NOT NULL column, so form.save() cannot raise
(createChild_ok_of_valid below); the saveError arm is unreachable. -/
def register_child (today yearMax : Int) (db : Db) (d : ChildData) : Db × RegResult :=
  if childFieldErrors today yearMax d = [] then
    match db.createChild d with
    | .ok db' => (db', .saved)
    | .error _ => (db, .saveError)
  else (db, .formErrors (childFieldErrors today yearMax d))

/-- delete_child: Child.objects.get(id=pk) raises DoesNotExist on a
missing id; otherwise the row is deleted and the CASCADE foreign keys
declared in models.py remove its ChildProfilePicture and ChildProgress
rows. -/
def delete_child (db : Db) (pk : Nat) : Except DbError Db :=
  match db.children.find? (fun c => c.id == pk) with
  | none => .error .doesNotExist
  | some _ =>
      .ok { db with
              children := db.children.filter (fun c => !(c.id == pk))
              pictures := db.pictures.filter (fun p => !(p.child == pk))
              progresses := db.progresses.filter (fun p => !(p.child == pk)) }

/-! ## Sponsor views (apps/sponsor/views.py) -/

/-- The sponsor_list queryset: active sponsors ordered by id; a
non-empty search keeps only sponsors whose first_name AND last_name both
contain the query case-insensitively (the two chained filter calls). -/
def sponsorQueryset (db : Db) (search : Option String) : List Sponsor :=
  let base := orderBy (fun s => s.id) (db.sponsors.filter (fun s => s.is_departed == "No"))
  match search with
  | none => base
  | some q =>
      if q == "" then base
      else (base.filter (fun s => icontainsStr s.first_name q)).filter
             (fun s => icontainsStr s.last_name q)

/-- sponsor_list: the page of sponsor records rendered (page size 25). -/
def sponsor_list (db : Db) (search : Option String) (page : PageParam) : List Sponsor :=
  paginate 25 (sponsorQueryset db search) page

/-- The sponsor_depature_list queryset (source keeps the typo): departed
sponsors ordered by id with the same two chained search filters. -/
def departedQueryset (db : Db) (search : Option String) : List Sponsor :=
  let base := orderBy (fun s => s.id) (db.sponsors.filter (fun s => s.is_departed == "Yes"))
  match search with
  | none => base
  | some q =>
      if q == "" then base
      else (base.filter (fun s => icontainsStr s.first_name q)).filter
             (fun s => icontainsStr s.last_name q)

/-- sponsor_depature_list: the page of departed sponsors (page size
25). -/
def sponsor_depature_list (db : Db) (search : Option String) (page : PageParam) : List Sponsor :=
  paginate 25 (departedQueryset db search) page

/-- Outcome of the child_sponsorship view. -/
inductive CsResult
  | notFound
  | formInvalid
  | duplicateMsg
  | success
deriving DecidableEq, Repr

/-- Whether a ChildSponsorship row exists for the (sponsor, child)
pair - the existence check of the view. -/
def pairExists (db : Db) (sid cid : Nat) : Bool :=
  db.sponsorships.any (fun l => l.sponsor == sid && l.child == cid)

/-- Set is_sponsored to "Yes" on the child with the given id. -/
def setSponsoredYes (cid : Nat) (children : List Child) : List Child :=
  children.map (fun c =>
    if c.id == cid then { c with data := { c.data with is_sponsored := .vstr "Yes" } } else c)

/-- child_sponsorship (POST branch): 404 when the sponsor or child id is
missing; reject with a duplicate message when a link for the pair already
exists (no mutation); otherwise, inside one transaction.atomic block,
create the link row and set the child's is_sponsored to "Yes". -/
def child_sponsorship (db : Db) (formValid : Bool) (sid cid : Nat) (stype sdate : Value) :
    Db × CsResult :=
  if formValid then
    match db.sponsors.find? (fun s => s.id == sid) with
    | none => (db, .notFound)
    | some _ =>
        match db.children.find? (fun c => c.id == cid) with
        | none => (db, .notFound)
        | some _ =>
            if pairExists db sid cid then (db, .duplicateMsg)
            else
              ({ db with
                   sponsorships := db.sponsorships ++
                     [{ id := db.nextSponsorshipId, sponsor := sid, child := cid
                        sponsorship_type := stype, start_date := sdate }]
                   nextSponsorshipId := db.nextSponsorshipId + 1
                   children := setSponsoredYes cid db.children },
               .success)
  else (db, .formInvalid)

/-! ## Policy views (apps/users/views.py) -/

/-- HTTP-level outcome of the policy views. -/
inductive PolicyResp
  | redirect (target : String)
  | badRequest
  | notFoundResp
deriving DecidableEq, Repr

/-- validate_policy: get_object_or_404, then only a POST on a policy
whose is_valid is still false flips the flag and redirects; every other
combination (GET, or an already-valid policy) falls through to
HttpResponseBadRequest without touching the record. -/
def validate_policy (db : Db) (pid : Nat) (isPost : Bool) : Db × PolicyResp :=
  match db.policies.find? (fun p => p.id == pid) with
  | none => (db, .notFoundResp)
  | some p =>
      if isPost && !p.is_valid then
        ({ db with policies := db.policies.map (fun q =>
              if q.id == pid then { q with is_valid := true } else q) },
         .redirect "policy_list")
      else (db, .badRequest)

/-- Modelled from the spec: PolicyForm (apps/users/forms.py is not part
of the sources) edits the policy content; is_valid flips true only via
the explicit validation action, so update_policy rewrites content and
leaves is_valid untouched. -/
def update_policy (db : Db) (pid : Nat) (newContent : String) : Db × PolicyResp :=
  match db.policies.find? (fun p => p.id == pid) with
  | none => (db, .notFoundResp)
  | some _ =>
      ({ db with policies := db.policies.map (fun q =>
            if q.id == pid then { q with content := newContent } else q) },
       .redirect "policy_list")

/-- Outcome of the read_policy view. -/
inductive ReadResult
  | markedRead
  | alreadyRead
  | noAction
  | notFoundRead
  | multipleError
deriving DecidableEq, Repr

/-- read_policy: get_object_or_404, then on POST a
PolicyRead.objects.get_or_create by (user, policy): create and report
success when no row exists, report "already read" when exactly one does
(raising MultipleObjectsReturned if the pair is duplicated); a GET just
redirects. -/
def read_policy (db : Db) (uid pid : Nat) (isPost : Bool) : Db × ReadResult :=
  match db.policies.find? (fun p => p.id == pid) with
  | none => (db, .notFoundRead)
  | some _ =>
      if isPost then
        match db.policyReads.filter (fun r => r.user == uid && r.policy == pid) with
        | [] => ({ db with policyReads := db.policyReads ++ [{ user := uid, policy := pid }] },
                 .markedRead)
        | [_] => (db, .alreadyRead)
        | _ => (db, .multipleError)
      else (db, .noAction)

/-- policy_list: the page of policies rendered with no search parameter
(page size 25). -/
def policy_list (db : Db) (page : PageParam) : List Policy :=
  paginate 25 (orderBy (fun p => p.id) db.policies) page

/-- The count of PolicyRead rows for a (user, policy) pair. -/
def pairCount (db : Db) (uid pid : Nat) : Nat :=
  (db.policyReads.filter (fun r => r.user == uid && r.policy == pid)).length

/-! ## Spreadsheet importer (backend/apps/main/views.py) -/

/-- The errors one import-loop iteration can raise: row[i] on a row
shorter than 31 cells raises IndexError, and Child.objects.create
raises IntegrityError when a NOT NULL column receives NULL. -/
inductive ImpError
  | indexError (i : Nat)
  | integrityError
deriving DecidableEq, Repr

/-- row[i] in the import loop: the cell value, or IndexError when the
row is shorter. -/
def cellAt (r : List Value) (i : Nat) : Except ImpError Value :=
  match r[i]? with
  | some v => .ok v
  | none => .error (.indexError i)

/-- One iteration of the import loop: read the 31 cells row[0]..row[30],
then create a record only when the first cell is not None. -/
def processRow (r : List Value) : Except ImpError (Option ChildData) := do
  let c0 ← cellAt r 0
  let c1 ← cellAt r 1
  let c2 ← cellAt r 2
  let c3 ← cellAt r 3
  let c4 ← cellAt r 4
  let c5 ← cellAt r 5
  let c6 ← cellAt r 6
  let c7 ← cellAt r 7
  let c8 ← cellAt r 8
  let c9 ← cellAt r 9
  let c10 ← cellAt r 10
  let c11 ← cellAt r 11
  let c12 ← cellAt r 12
  let c13 ← cellAt r 13
  let c14 ← cellAt r 14
  let c15 ← cellAt r 15
  let c16 ← cellAt r 16
  let c17 ← cellAt r 17
  let c18 ← cellAt r 18
  let c19 ← cellAt r 19
  let c20 ← cellAt r 20
  let c21 ← cellAt r 21
  let c22 ← cellAt r 22
  let c23 ← cellAt r 23
  let c24 ← cellAt r 24
  let c25 ← cellAt r 25
  let c26 ← cellAt r 26
  let c27 ← cellAt r 27
  let c28 ← cellAt r 28
  let c29 ← cellAt r 29
  let c30 ← cellAt r 30
  if c0 == .vnone then
    return none
  else
    return some
      { full_name := c0, preferred_name := c1, residence := c2, tribe := c3
        gender := c4, date_of_birth := c5, weight := c6, height := c7
        c_interest := c8, is_child_in_school := c9, is_sponsored := c10
        father_name := c11, is_father_alive := c12, father_description := c13
        mother_name := c14, is_mother_alive := c15, mother_description := c16
        guardian := c17, guardian_contact := c18, relationship_with_guardian := c19
        siblings := c20, background_info := c21, health_status := c22
        responsibility := c23, relationship_with_christ := c24, religion := c25
        prayer_request := c26, year_enrolled := c27, is_departed := c28
        staff_comment := c29, compiled_by := c30
        district := .vnone, aspiration := .vnone }

/-- The error one import-loop iteration raises on a row, if any: an
IndexError from the cell reads, or an IntegrityError from the create
when the row is processed but leaves a NOT NULL column NULL. -/
def rowErr (r : List Value) : Option ImpError :=
  match processRow r with
  | .error e => some e
  | .ok none => none
  | .ok (some d) => if childNotNullOk d then none else some .integrityError

/-- The import loop: each Child.objects.create inserts inside the
request's open transaction; the first exception (IndexError from the
cell reads, or IntegrityError from the create) stops the loop and is
re-raised to the view. -/
def importRows : List (List Value) → Db → Db × Option ImpError
  | [], db => (db, none)
  | r :: rest, db =>
      match processRow r with
      | .error e => (db, some e)
      | .ok none => importRows rest db
      | .ok (some d) =>
          match db.createChild d with
          | .ok db' => importRows rest db'
          | .error _ => (db, some .integrityError)

/-- openpyxl pads a row's missing trailing cells with empty (None)
cells. -/
def padRow (w : Nat) (r : List Value) : List Value :=
  r ++ List.replicate (w - r.length) Value.vnone

/-- The sheet's max_column: the width of its widest row. -/
def maxWidth (sheet : List (List Value)) : Nat :=
  (sheet.map List.length).foldr max 0

/-- sheet.iter_rows(min_row=2): the data rows below the header, each
padded by openpyxl to the sheet's max_column. -/
def iterRows (sheet : List (List Value)) : List (List Value) :=
  (sheet.drop 1).map (padRow (maxWidth sheet))

/-- process_and_import_data: load the workbook, iterate the padded rows
from row 2, and run the import loop. -/
def process_and_import_data (sheet : List (List Value)) (db : Db) : Db × Option ImpError :=
  importRows (iterRows sheet) db

/-- The user-visible outcome of import_data. -/
inductive ImportOutcome
  | successMsg
  | errorMsg (e : ImpError)
  | formNotValid
deriving DecidableEq, Repr

/-- Whether an exception caught inside the transaction.atomic body has
already marked the transaction: Django's save wraps the INSERT in
mark_for_rollback_on_error, so a create-raised error sets
needs_rollback, while an IndexError raised by the row indexing does
not. -/
def errMarksRollback : ImpError → Bool
  | .indexError _ => false
  | .integrityError => true

/-- import_data (POST branch), including the transaction.atomic
decorator on the view: the import runs inside one atomic block and the
view catches any exception to show an error message; on exit the block
commits unless the error marked the transaction, in which case every
row created by the import is rolled back. -/
def import_data (db : Db) (formValid : Bool) (sheet : List (List Value)) : Db × ImportOutcome :=
  if formValid then
    match process_and_import_data sheet db with
    | (db', none) => (db', .successMsg)
    | (db', some e) =>
        if errMarksRollback e then (db, .errorMsg e) else (db', .errorMsg e)
  else (db, .formNotValid)

/-- The cell value at an index, NULL when absent. -/
def cellD (r : List Value) (i : Nat) : Value :=
  (r[i]?).getD .vnone

/-- The documented import column order of spec section 6: the 31 cells
of a data row mapped positionally onto the Child fields, the fields the
importer does not set keeping their NULL defaults. -/
def rowToChildData (r : List Value) : ChildData :=
  { full_name := cellD r 0
    preferred_name := cellD r 1
    residence := cellD r 2
    tribe := cellD r 3
    gender := cellD r 4
    date_of_birth := cellD r 5
    weight := cellD r 6
    height := cellD r 7
    c_interest := cellD r 8
    is_child_in_school := cellD r 9
    is_sponsored := cellD r 10
    father_name := cellD r 11
    is_father_alive := cellD r 12
    father_description := cellD r 13
    mother_name := cellD r 14
    is_mother_alive := cellD r 15
    mother_description := cellD r 16
    guardian := cellD r 17
    guardian_contact := cellD r 18
    relationship_with_guardian := cellD r 19
    siblings := cellD r 20
    background_info := cellD r 21
    health_status := cellD r 22
    responsibility := cellD r 23
    relationship_with_christ := cellD r 24
    religion := cellD r 25
    prayer_request := cellD r 26
    year_enrolled := cellD r 27
    is_departed := cellD r 28
    staff_comment := cellD r 29
    compiled_by := cellD r 30
    district := .vnone, aspiration := .vnone }

/-! ## Concrete fixtures used by witnesses and counterexamples -/

/-- A database holding one already-valid policy. -/
def dbValidPolicy : Db :=
  { Db.empty with policies := [{ id := 1, content := "terms", is_valid := true }] }

/-- A database holding one not-yet-valid and one valid policy. -/
def dbTwoPolicies : Db :=
  { Db.empty with policies := [{ id := 1, content := "a", is_valid := false },
                               { id := 2, content := "b", is_valid := true }] }

/-- A database with one sponsor and one child and no sponsorship. -/
def dbOnePair : Db :=
  { Db.empty with sponsors := [{ id := 1, first_name := "Alice", last_name := "Smith",
                                 is_departed := "No" }]
                  children := [{ id := 1, data := blankChild }]
                  nextChildId := 2 }

/-- A database with one child owning one profile picture and two
progress rows. -/
def dbCascade : Db :=
  { Db.empty with children := [{ id := 1, data := blankChild }]
                  nextChildId := 2
                  pictures := [{ id := 1, child := 1, picture := "p.jpg" }]
                  progresses := [{ id := 1, child := 1 }, { id := 2, child := 1 }] }

/-- A child-form input that is valid except for year_enrolled = 1999. -/
def childBadYear : ChildData :=
  { blankChild with full_name := .vstr "John Doe", gender := .vstr "Male"
                    is_father_alive := .vstr "Yes", is_mother_alive := .vstr "No"
                    year_enrolled := .vint 1999 }

/-- A database with thirty children, sixty sponsors (half departed) and
thirty policies, for the pagination examples. -/
def dbLists : Db :=
  { Db.empty with
      children := (List.range 30).map (fun i => { id := i + 1, data := blankChild })
      nextChildId := 31
      sponsors :=
        (List.range 30).map (fun i =>
          { id := i + 1, first_name := "A", last_name := "B", is_departed := "No" })
        ++ (List.range 30).map (fun i =>
          { id := i + 31, first_name := "C", last_name := "D", is_departed := "Yes" })
      policies := (List.range 30).map (fun i =>
        { id := i + 1, content := "p", is_valid := false }) }

/-- A 31-cell data row with a non-empty first cell and every NOT NULL
column populated, so its create succeeds. -/
def fullRow : List Value :=
  [.vstr "Jane Doe", .vstr "Janey", .vstr "Kampala", .vstr "Baganda", .vstr "Female",
   .vdate 730000, .vint 20, .vint 90, .vstr "music", .vstr "Yes",
   .vstr "No", .vstr "F", .vstr "Yes", .vstr "ok", .vstr "M",
   .vstr "Yes", .vstr "ok", .vstr "G", .vstr "+256700000000", .vstr "aunt",
   .vstr "none", .vstr "info", .vstr "good", .vstr "chores", .vstr "saved",
   .vstr "Catholic", .vstr "peace", .vint 2015, .vstr "No", .vstr "ok",
   .vstr "staff"]

/-- The same row with the year_enrolled cell (column 27) empty: the
first cell is non-empty, so the importer attempts the create, which
raises IntegrityError on the NOT NULL year_enrolled column. -/
def nullYearRow : List Value :=
  [.vstr "Jane Doe", .vstr "Janey", .vstr "Kampala", .vstr "Baganda", .vstr "Female",
   .vdate 730000, .vint 20, .vint 90, .vstr "music", .vstr "Yes",
   .vstr "No", .vstr "F", .vstr "Yes", .vstr "ok", .vstr "M",
   .vstr "Yes", .vstr "ok", .vstr "G", .vstr "+256700000000", .vstr "aunt",
   .vstr "none", .vstr "info", .vstr "good", .vstr "chores", .vstr "saved",
   .vstr "Catholic", .vstr "peace", .vnone, .vstr "No", .vstr "ok",
   .vstr "staff"]

/-- A 31-cell header row. -/
def header31 : List Value := List.replicate 31 (.vstr "h")

/-- A sheet whose second data row fails its create after the first data
row created a child, with one more row behind it. -/
def sheetRollback : List (List Value) := [header31, fullRow, nullYearRow, fullRow]

/-- A 31-cell data row violating the form validators: digits in
full_name, date_of_birth before 1900-01-01, year_enrolled 1999. -/
def badRow : List Value :=
  [.vstr "J0hn Doe", .vnone, .vnone, .vnone, .vstr "Male",
   .vdate (ordinal1900 - 100), .vnone, .vnone, .vnone, .vstr "No",
   .vstr "No", .vnone, .vstr "Yes", .vnone, .vnone,
   .vstr "Yes", .vnone, .vnone, .vnone, .vnone,
   .vnone, .vnone, .vnone, .vnone, .vnone,
   .vnone, .vnone, .vint 1999, .vstr "No", .vnone,
   .vstr "staff"]

/-! ## Helper lemmas -/

lemma mem_insertLe (key : α → Nat) (c a : α) (l : List α) :
    a ∈ insertLe key c l ↔ a = c ∨ a ∈ l := by
  induction l with
  | nil => simp [insertLe]
  | cons d ds ih =>
      by_cases h : key c ≤ key d
      · simp [insertLe, h]
      · simp [insertLe, h, ih]
        tauto

lemma mem_orderBy (key : α → Nat) (a : α) (l : List α) :
    a ∈ orderBy key l ↔ a ∈ l := by
  induction l with
  | nil => simp [orderBy]
  | cons c cs ih => simp [orderBy, mem_insertLe, ih]

lemma numPages_pos (per count : Nat) (hper : 0 < per) : 0 < numPages per count := by
  unfold numPages
  split
  · omega
  · have : per ≤ count + per - 1 := by omega
    have := Nat.one_le_div_iff hper |>.mpr this
    omega

lemma paginate_length_le (per : Nat) (l : List α) (page : PageParam) :
    (paginate per l page).length ≤ per := by
  simp [paginate]

lemma paginate_nonNumeric (per : Nat) (l : List α) :
    paginate per l .nonNumeric = l.take per := by
  simp [paginate, resolvePage]

lemma paginate_missing (per : Nat) (l : List α) :
    paginate per l .missing = l.take per := by
  simp [paginate, resolvePage]

lemma paginate_clamp (per : Nat) (l : List α) (k : Int) (hper : 0 < per)
    (hk : (numPages per l.length : Int) < k) :
    paginate per l (.numeric k) = (l.drop ((numPages per l.length - 1) * per)).take per := by
  have hpos := numPages_pos per l.length hper
  have hk1 : ¬ (k < 1) := by omega
  simp only [paginate, resolvePage]
  rw [if_neg hk1, if_pos hk]

/-! ## C2: policy validation -/

/-- C2 counterexample: re-validating an already-valid policy is not a
no-op success - the view leaves the state unchanged but answers with
HttpResponseBadRequest instead of the success redirect, so the operation
does signal an error. -/
theorem c2_counterexample :
    (validate_policy dbValidPolicy 1 true).1 = dbValidPolicy ∧
    (validate_policy dbValidPolicy 1 true).2 = PolicyResp.badRequest ∧
    PolicyResp.badRequest ≠ PolicyResp.redirect "policy_list" := by
  decide

/-- C2 (amended): for an already-valid policy a POST to validate-policy
changes no state and leaves is_valid true but answers with a bad-request
error rather than success; for a policy with is_valid false it
transitions the flag to true; and no modeled policy operation
(validate_policy, update_policy, read_policy) transitions the flag back
from true to false. -/
theorem c2_validate_policy_amended (db : Db) (pid uid : Nat) (isPost : Bool)
    (s : String) (p : Policy)
    (hp : db.policies.find? (fun q => q.id == pid) = some p) :
    (p.is_valid = true → validate_policy db pid true = (db, .badRequest)) ∧
    (p.is_valid = false →
       (validate_policy db pid true).2 = .redirect "policy_list" ∧
       ∀ q ∈ (validate_policy db pid true).1.policies, q.id = pid → q.is_valid = true) ∧
    (∀ q' ∈ (validate_policy db pid isPost).1.policies,
       ∃ q ∈ db.policies, q.id = q'.id ∧ (q.is_valid = true → q'.is_valid = true)) ∧
    (∀ q' ∈ (update_policy db pid s).1.policies,
       ∃ q ∈ db.policies, q.id = q'.id ∧ q.is_valid = q'.is_valid) ∧
    (read_policy db uid pid isPost).1.policies = db.policies := by
  refine ⟨?_, ?_, ?_, ?_, ?_⟩
  · intro hv
    simp [validate_policy, hp, hv]
  · intro hv
    refine ⟨by simp [validate_policy, hp, hv], ?_⟩
    intro q hq hid
    simp only [validate_policy, hp, hv] at hq
    simp at hq
    rcases hq with ⟨q0, _, rfl⟩
    by_cases h0 : q0.id = pid
    · simp [h0]
    · rw [if_neg h0] at hid ⊢
      exact absurd hid h0
  · intro q' hq'
    unfold validate_policy at hq'
    rw [hp] at hq'
    by_cases hb : isPost && !p.is_valid
    · simp only [hb, if_pos] at hq'
      simp at hq'
      rcases hq' with ⟨q0, hq0, rfl⟩
      refine ⟨q0, hq0, ?_, ?_⟩
      · by_cases h0 : q0.id = pid <;> simp [h0]
      · intro hv
        by_cases h0 : q0.id = pid <;> simp [h0, hv]
    · simp only [hb, if_neg, Bool.false_eq_true, reduceIte] at hq'
      exact ⟨q', hq', rfl, fun h => h⟩
  · intro q' hq'
    unfold update_policy at hq'
    rw [hp] at hq'
    simp at hq'
    rcases hq' with ⟨q0, hq0, rfl⟩
    refine ⟨q0, hq0, ?_, ?_⟩
    · by_cases h0 : q0.id = pid <;> simp [h0]
    · by_cases h0 : q0.id = pid <;> simp [h0]
  · unfold read_policy
    rw [hp]
    rcases isPost with _ | _
    · rfl
    · simp only
      rcases hfil : db.policyReads.filter (fun r => r.user == uid && r.policy == pid) with
        _ | ⟨x, _ | ⟨y, t⟩⟩ <;> simp [hfil]

/-- C2 witness: the amended statement holds on a concrete database with
a not-yet-valid policy. -/
theorem c2_validate_policy_amended_witness :
    (dbTwoPolicies.policies.find? (fun q => q.id == 1) =
       some { id := 1, content := "a", is_valid := false }) ∧
    (((Policy.mk 1 "a" false).is_valid = true →
        validate_policy dbTwoPolicies 1 true = (dbTwoPolicies, .badRequest)) ∧
     ((Policy.mk 1 "a" false).is_valid = false →
        (validate_policy dbTwoPolicies 1 true).2 = .redirect "policy_list" ∧
        ∀ q ∈ (validate_policy dbTwoPolicies 1 true).1.policies, q.id = 1 → q.is_valid = true) ∧
     (∀ q' ∈ (validate_policy dbTwoPolicies 1 true).1.policies,
        ∃ q ∈ dbTwoPolicies.policies, q.id = q'.id ∧ (q.is_valid = true → q'.is_valid = true)) ∧
     (∀ q' ∈ (update_policy dbTwoPolicies 1 "new").1.policies,
        ∃ q ∈ dbTwoPolicies.policies, q.id = q'.id ∧ q.is_valid = q'.is_valid) ∧
     (read_policy dbTwoPolicies 7 1 true).1.policies = dbTwoPolicies.policies) :=
  ⟨by decide, c2_validate_policy_amended dbTwoPolicies 1 7 true "new"
     { id := 1, content := "a", is_valid := false } (by decide)⟩

/-! ## C8: idempotent policy acknowledgement -/

/-- C8: acknowledging a policy twice for the same (user, policy) pair
leaves exactly one PolicyRead row; the second call changes no state and
reports "already read" rather than an error, and the result of each call
tells whether it created the row or found it. -/
theorem c8_read_policy_idempotent (db : Db) (uid pid : Nat) (p : Policy)
    (hp : db.policies.find? (fun q => q.id == pid) = some p)
    (hcount : pairCount db uid pid ≤ 1) :
    pairCount (read_policy (read_policy db uid pid true).1 uid pid true).1 uid pid = 1 ∧
    (read_policy (read_policy db uid pid true).1 uid pid true).1 =
      (read_policy db uid pid true).1 ∧
    (read_policy (read_policy db uid pid true).1 uid pid true).2 = .alreadyRead ∧
    ((read_policy db uid pid true).2 = .markedRead ↔ pairCount db uid pid = 0) ∧
    ((read_policy db uid pid true).2 = .alreadyRead ↔ pairCount db uid pid = 1) := by
  rcases hfil : db.policyReads.filter (fun r => r.user == uid && r.policy == pid) with
    _ | ⟨x, _ | ⟨y, t⟩⟩
  · have h1 : read_policy db uid pid true =
        ({ db with policyReads := db.policyReads ++ [{ user := uid, policy := pid }] },
         .markedRead) := by
      unfold read_policy
      rw [hp]
      simp [hfil]
    have hfil2 : ({ db with policyReads := db.policyReads ++ [{ user := uid, policy := pid }] }
        : Db).policyReads.filter (fun r => r.user == uid && r.policy == pid) =
        [{ user := uid, policy := pid }] := by
      simp [List.filter_append, hfil]
    have h2 : read_policy ({ db with
        policyReads := db.policyReads ++ [{ user := uid, policy := pid }] } : Db) uid pid true =
        ({ db with policyReads := db.policyReads ++ [{ user := uid, policy := pid }] },
         .alreadyRead) := by
      unfold read_policy
      rw [show ({ db with policyReads := db.policyReads ++ [{ user := uid, policy := pid }] }
            : Db).policies = db.policies from rfl, hp]
      simp [hfil2]
    rw [h1]
    simp only [h2]
    refine ⟨?_, trivial, trivial, ?_, ?_⟩
    · simp [pairCount, hfil2]
    · simp [pairCount, hfil]
    · simp [pairCount, hfil]
  · have h1 : read_policy db uid pid true = (db, .alreadyRead) := by
      unfold read_policy
      rw [hp]
      simp [hfil]
    rw [h1]
    simp only [h1]
    refine ⟨?_, trivial, trivial, ?_, ?_⟩
    · simp [pairCount, hfil]
    · simp [pairCount, hfil]
    · simp [pairCount, hfil]
  · exact absurd hcount (by simp [pairCount, hfil])

/-- C8 witness: the idempotence statement at a concrete database with
one policy and no acknowledgements. -/
theorem c8_read_policy_idempotent_witness :
    (dbTwoPolicies.policies.find? (fun q => q.id == 2) =
       some { id := 2, content := "b", is_valid := true }) ∧
    pairCount dbTwoPolicies 7 2 ≤ 1 ∧
    (pairCount (read_policy (read_policy dbTwoPolicies 7 2 true).1 7 2 true).1 7 2 = 1 ∧
     (read_policy (read_policy dbTwoPolicies 7 2 true).1 7 2 true).1 =
       (read_policy dbTwoPolicies 7 2 true).1 ∧
     (read_policy (read_policy dbTwoPolicies 7 2 true).1 7 2 true).2 = .alreadyRead ∧
     ((read_policy dbTwoPolicies 7 2 true).2 = .markedRead ↔ pairCount dbTwoPolicies 7 2 = 0) ∧
     ((read_policy dbTwoPolicies 7 2 true).2 = .alreadyRead ↔ pairCount dbTwoPolicies 7 2 = 1)) :=
  ⟨by decide, by decide,
   c8_read_policy_idempotent dbTwoPolicies 7 2
     { id := 2, content := "b", is_valid := true } (by decide) (by decide)⟩

/-! ## C6: cascading delete and missing id -/

/-- C6: deleting a stored child removes it together with every
ChildProfilePicture and ChildProgress row referencing it, keeps all
unrelated rows, and touches no other table; deleting a missing id raises
the DoesNotExist error rather than silently doing nothing. -/
theorem c6_delete_child_cascade (db : Db) (pk : Nat) :
    (db.children.find? (fun c => c.id == pk) = none →
       delete_child db pk = .error .doesNotExist) ∧
    (∀ c₀, db.children.find? (fun c => c.id == pk) = some c₀ →
       ∃ db', delete_child db pk = .ok db' ∧
         (∀ c ∈ db'.children, c.id ≠ pk) ∧
         (∀ pic ∈ db'.pictures, pic.child ≠ pk) ∧
         (∀ pr ∈ db'.progresses, pr.child ≠ pk) ∧
         (∀ c ∈ db.children, c.id ≠ pk → c ∈ db'.children) ∧
         (∀ pic ∈ db.pictures, pic.child ≠ pk → pic ∈ db'.pictures) ∧
         (∀ pr ∈ db.progresses, pr.child ≠ pk → pr ∈ db'.progresses) ∧
         db'.sponsors = db.sponsors ∧ db'.policies = db.policies) := by
  constructor
  · intro hnone
    unfold delete_child
    rw [hnone]
  · intro c₀ hsome
    unfold delete_child
    rw [hsome]
    refine ⟨_, rfl, ?_, ?_, ?_, ?_, ?_, ?_, rfl, rfl⟩
    · intro c hc
      have := (List.mem_filter.mp hc).2
      simpa using this
    · intro pic hpic
      have := (List.mem_filter.mp hpic).2
      simpa using this
    · intro pr hpr
      have := (List.mem_filter.mp hpr).2
      simpa using this
    · intro c hc hne
      exact List.mem_filter.mpr ⟨hc, by simpa using hne⟩
    · intro pic hpic hne
      exact List.mem_filter.mpr ⟨hpic, by simpa using hne⟩
    · intro pr hpr hne
      exact List.mem_filter.mpr ⟨hpr, by simpa using hne⟩

/-- C6 witness: on a concrete database a child with one picture and two
progress rows is cascade-deleted, and a missing id errors. -/
theorem c6_delete_child_cascade_witness :
    (dbCascade.children.find? (fun c => c.id == 99) = none ∧
       delete_child dbCascade 99 = .error .doesNotExist) ∧
    (dbCascade.children.find? (fun c => c.id == 1) = some { id := 1, data := blankChild } ∧
       ∃ db', delete_child dbCascade 1 = .ok db' ∧
         (∀ c ∈ db'.children, c.id ≠ 1) ∧
         (∀ pic ∈ db'.pictures, pic.child ≠ 1) ∧
         (∀ pr ∈ db'.progresses, pr.child ≠ 1) ∧
         (∀ c ∈ dbCascade.children, c.id ≠ 1 → c ∈ db'.children) ∧
         (∀ pic ∈ dbCascade.pictures, pic.child ≠ 1 → pic ∈ db'.pictures) ∧
         (∀ pr ∈ dbCascade.progresses, pr.child ≠ 1 → pr ∈ db'.progresses) ∧
         db'.sponsors = dbCascade.sponsors ∧ db'.policies = dbCascade.policies) :=
  ⟨⟨by decide, (c6_delete_child_cascade dbCascade 99).1 (by decide)⟩,
   ⟨by decide, (c6_delete_child_cascade dbCascade 1).2 { id := 1, data := blankChild }
      (by decide)⟩⟩

/-! ## C5: child creation validation bounds -/

/-- C5: a child-create request whose date_of_birth is out of the
[1900-01-01, today] bounds or whose year_enrolled is outside
[2013, current year] fails with a field error naming the offending field
and creates no record. -/
theorem c5_child_validation (today yearMax : Int) (db : Db) (d : ChildData)
    (h : dobOk today d.date_of_birth = false ∨ yearOk yearMax d.year_enrolled = false) :
    (dobOk today d.date_of_birth = false →
       "date_of_birth" ∈ childFieldErrors today yearMax d) ∧
    (yearOk yearMax d.year_enrolled = false →
       "year_enrolled" ∈ childFieldErrors today yearMax d) ∧
    ∃ errs, register_child today yearMax db d = (db, .formErrors errs) ∧ errs ≠ [] := by
  have hdob : dobOk today d.date_of_birth = false →
      "date_of_birth" ∈ childFieldErrors today yearMax d := by
    intro hx
    simp [childFieldErrors, hx]
  have hyear : yearOk yearMax d.year_enrolled = false →
      "year_enrolled" ∈ childFieldErrors today yearMax d := by
    intro hx
    simp [childFieldErrors, hx]
  refine ⟨hdob, hyear, childFieldErrors today yearMax d, ?_, ?_⟩
  · have hne : childFieldErrors today yearMax d ≠ [] := by
      rcases h with hx | hx
      · exact List.ne_nil_of_mem (hdob hx)
      · exact List.ne_nil_of_mem (hyear hx)
    unfold register_child
    rw [if_neg hne]
  · rcases h with hx | hx
    · exact List.ne_nil_of_mem (hdob hx)
    · exact List.ne_nil_of_mem (hyear hx)

/-- C5 witness: a concrete input with year_enrolled = 1999 fails with a
year_enrolled field error and writes nothing (today = ordinal 739000,
current year 2026). -/
theorem c5_child_validation_witness :
    (dobOk 739000 childBadYear.date_of_birth = false ∨
       yearOk 2026 childBadYear.year_enrolled = false) ∧
    ((dobOk 739000 childBadYear.date_of_birth = false →
        "date_of_birth" ∈ childFieldErrors 739000 2026 childBadYear) ∧
     (yearOk 2026 childBadYear.year_enrolled = false →
        "year_enrolled" ∈ childFieldErrors 739000 2026 childBadYear) ∧
     ∃ errs, register_child 739000 2026 Db.empty childBadYear = (Db.empty, .formErrors errs) ∧
       errs ≠ []) :=
  ⟨Or.inr (by decide),
   c5_child_validation 739000 2026 Db.empty childBadYear (Or.inr (by decide))⟩

/-! ## C1: sponsorship creation is duplicate-checked and atomic -/

/-- C1: with existing sponsor and child, creating a ChildSponsorship for
a pair that already has one reports the duplicate and mutates nothing;
otherwise it creates the link and sets the child's is_sponsored to
"Yes"; in every case either both changes are visible afterwards or the
database is unchanged. -/
theorem c1_child_sponsorship_atomic (db : Db) (sid cid : Nat) (st sd : Value)
    (hs : (db.sponsors.find? (fun s => s.id == sid)).isSome = true)
    (hc : (db.children.find? (fun c => c.id == cid)).isSome = true) :
    (pairExists db sid cid = true →
       child_sponsorship db true sid cid st sd = (db, .duplicateMsg)) ∧
    (pairExists db sid cid = false →
       (child_sponsorship db true sid cid st sd).2 = .success ∧
       pairExists (child_sponsorship db true sid cid st sd).1 sid cid = true ∧
       (∀ c ∈ (child_sponsorship db true sid cid st sd).1.children,
          c.id = cid → c.data.is_sponsored = .vstr "Yes")) ∧
    ((child_sponsorship db true sid cid st sd).1 = db ∨
       (pairExists (child_sponsorship db true sid cid st sd).1 sid cid = true ∧
        ∀ c ∈ (child_sponsorship db true sid cid st sd).1.children,
          c.id = cid → c.data.is_sponsored = .vstr "Yes")) := by
  rcases hfs : db.sponsors.find? (fun s => s.id == sid) with _ | s0
  · rw [hfs] at hs
    cases hs
  rcases hfc : db.children.find? (fun c => c.id == cid) with _ | c0
  · rw [hfc] at hc
    cases hc
  have hdupEq : pairExists db sid cid = true →
      child_sponsorship db true sid cid st sd = (db, .duplicateMsg) := by
    intro hdup
    simp [child_sponsorship, hfs, hfc, hdup]
  have hsucc : pairExists db sid cid = false →
      (child_sponsorship db true sid cid st sd).2 = .success ∧
      pairExists (child_sponsorship db true sid cid st sd).1 sid cid = true ∧
      (∀ c ∈ (child_sponsorship db true sid cid st sd).1.children,
         c.id = cid → c.data.is_sponsored = .vstr "Yes") := by
    intro hdup
    have hstep : child_sponsorship db true sid cid st sd =
        ({ db with
             sponsorships := db.sponsorships ++
               [{ id := db.nextSponsorshipId, sponsor := sid, child := cid,
                  sponsorship_type := st, start_date := sd }]
             nextSponsorshipId := db.nextSponsorshipId + 1
             children := setSponsoredYes cid db.children }, .success) := by
      simp only [child_sponsorship, hfs, hfc, hdup, Bool.false_eq_true, reduceIte]
    refine ⟨?_, ?_, ?_⟩
    · rw [hstep]
    · rw [hstep]
      simp [pairExists, List.any_append]
    · intro c hcm hid
      rw [hstep] at hcm
      simp only [setSponsoredYes] at hcm
      rcases List.mem_map.mp hcm with ⟨c1, _, rfl⟩
      cases hb : c1.id == cid
      · rw [hb] at hid
        simp only [Bool.false_eq_true, reduceIte] at hid
        rw [beq_eq_false_iff_ne] at hb
        exact absurd hid hb
      · simp
  refine ⟨hdupEq, hsucc, ?_⟩
  cases hb : pairExists db sid cid
  · exact Or.inr ⟨(hsucc hb).2.1, (hsucc hb).2.2⟩
  · exact Or.inl (by rw [hdupEq hb])

/-- C1 witness: the statement at a concrete database with one sponsor,
one child, and no sponsorship yet. -/
theorem c1_child_sponsorship_atomic_witness :
    ((dbOnePair.sponsors.find? (fun s => s.id == 1)).isSome = true) ∧
    ((dbOnePair.children.find? (fun c => c.id == 1)).isSome = true) ∧
    ((pairExists dbOnePair 1 1 = true →
        child_sponsorship dbOnePair true 1 1 (.vstr "Full") (.vdate 739000) =
          (dbOnePair, .duplicateMsg)) ∧
     (pairExists dbOnePair 1 1 = false →
        (child_sponsorship dbOnePair true 1 1 (.vstr "Full") (.vdate 739000)).2 = .success ∧
        pairExists (child_sponsorship dbOnePair true 1 1 (.vstr "Full") (.vdate 739000)).1 1 1
          = true ∧
        (∀ c ∈ (child_sponsorship dbOnePair true 1 1 (.vstr "Full") (.vdate 739000)).1.children,
           c.id = 1 → c.data.is_sponsored = .vstr "Yes")) ∧
     ((child_sponsorship dbOnePair true 1 1 (.vstr "Full") (.vdate 739000)).1 = dbOnePair ∨
        (pairExists (child_sponsorship dbOnePair true 1 1 (.vstr "Full") (.vdate 739000)).1 1 1
           = true ∧
         ∀ c ∈ (child_sponsorship dbOnePair true 1 1 (.vstr "Full") (.vdate 739000)).1.children,
           c.id = 1 → c.data.is_sponsored = .vstr "Yes"))) :=
  ⟨by decide, by decide,
   c1_child_sponsorship_atomic dbOnePair 1 1 (.vstr "Full") (.vdate 739000)
     (by decide) (by decide)⟩

/-! ## C9: the sponsor search requires both names to match -/

/-- C9: with a non-empty search query, the sponsor list (and the
departed-sponsor list) includes a sponsor exactly when the query is a
case-insensitive substring of the first name AND of the last name; a
sponsor matching on only one of the two names is excluded. -/
theorem c9_sponsor_search_conjunctive (db : Db) (q : String) (s : Sponsor) (hq : q ≠ "") :
    (s ∈ sponsorQueryset db (some q) ↔
       s ∈ db.sponsors ∧ s.is_departed = "No" ∧
       icontainsStr s.first_name q = true ∧ icontainsStr s.last_name q = true) ∧
    (s ∈ departedQueryset db (some q) ↔
       s ∈ db.sponsors ∧ s.is_departed = "Yes" ∧
       icontainsStr s.first_name q = true ∧ icontainsStr s.last_name q = true) ∧
    (icontainsStr s.first_name q = true → icontainsStr s.last_name q = false →
       s ∉ sponsorQueryset db (some q) ∧ s ∉ departedQueryset db (some q)) ∧
    (icontainsStr s.last_name q = true → icontainsStr s.first_name q = false →
       s ∉ sponsorQueryset db (some q) ∧ s ∉ departedQueryset db (some q)) := by
  have hq' : (q == "") = false := by
    rw [beq_eq_false_iff_ne]
    exact hq
  have h1 : s ∈ sponsorQueryset db (some q) ↔
      s ∈ db.sponsors ∧ s.is_departed = "No" ∧
      icontainsStr s.first_name q = true ∧ icontainsStr s.last_name q = true := by
    simp [sponsorQueryset, hq', List.mem_filter, mem_orderBy]
    tauto
  have h2 : s ∈ departedQueryset db (some q) ↔
      s ∈ db.sponsors ∧ s.is_departed = "Yes" ∧
      icontainsStr s.first_name q = true ∧ icontainsStr s.last_name q = true := by
    simp [departedQueryset, hq', List.mem_filter, mem_orderBy]
    tauto
  refine ⟨h1, h2, ?_, ?_⟩
  · intro _ hl
    refine ⟨fun hmem => ?_, fun hmem => ?_⟩
    · rcases h1.mp hmem with ⟨_, _, _, hcl⟩
      rw [hcl] at hl
      simp at hl
    · rcases h2.mp hmem with ⟨_, _, _, hcl⟩
      rw [hcl] at hl
      simp at hl
  · intro _ hf
    refine ⟨fun hmem => ?_, fun hmem => ?_⟩
    · rcases h1.mp hmem with ⟨_, _, hcf, _⟩
      rw [hcf] at hf
      simp at hf
    · rcases h2.mp hmem with ⟨_, _, hcf, _⟩
      rw [hcf] at hf
      simp at hf

/-- C9 witness: Alice Smith matches the query "ali" on first name only
and is therefore excluded from both search results. -/
theorem c9_sponsor_search_conjunctive_witness :
    ("ali" ≠ "") ∧
    ((Sponsor.mk 1 "Alice" "Smith" "No" ∈ sponsorQueryset dbOnePair (some "ali") ↔
        Sponsor.mk 1 "Alice" "Smith" "No" ∈ dbOnePair.sponsors ∧
        (Sponsor.mk 1 "Alice" "Smith" "No").is_departed = "No" ∧
        icontainsStr (Sponsor.mk 1 "Alice" "Smith" "No").first_name "ali" = true ∧
        icontainsStr (Sponsor.mk 1 "Alice" "Smith" "No").last_name "ali" = true) ∧
     (Sponsor.mk 1 "Alice" "Smith" "No" ∈ departedQueryset dbOnePair (some "ali") ↔
        Sponsor.mk 1 "Alice" "Smith" "No" ∈ dbOnePair.sponsors ∧
        (Sponsor.mk 1 "Alice" "Smith" "No").is_departed = "Yes" ∧
        icontainsStr (Sponsor.mk 1 "Alice" "Smith" "No").first_name "ali" = true ∧
        icontainsStr (Sponsor.mk 1 "Alice" "Smith" "No").last_name "ali" = true) ∧
     (icontainsStr (Sponsor.mk 1 "Alice" "Smith" "No").first_name "ali" = true →
        icontainsStr (Sponsor.mk 1 "Alice" "Smith" "No").last_name "ali" = false →
        Sponsor.mk 1 "Alice" "Smith" "No" ∉ sponsorQueryset dbOnePair (some "ali") ∧
        Sponsor.mk 1 "Alice" "Smith" "No" ∉ departedQueryset dbOnePair (some "ali")) ∧
     (icontainsStr (Sponsor.mk 1 "Alice" "Smith" "No").last_name "ali" = true →
        icontainsStr (Sponsor.mk 1 "Alice" "Smith" "No").first_name "ali" = false →
        Sponsor.mk 1 "Alice" "Smith" "No" ∉ sponsorQueryset dbOnePair (some "ali") ∧
        Sponsor.mk 1 "Alice" "Smith" "No" ∉ departedQueryset dbOnePair (some "ali"))) :=
  ⟨by decide,
   c9_sponsor_search_conjunctive dbOnePair "ali" (Sponsor.mk 1 "Alice" "Smith" "No")
     (by decide)⟩

/-! ## C4: pagination page sizes and clamping -/

/-- C4: for each of the four list views - children (page size 20),
sponsors, departed sponsors and policies (page size 25) - a non-numeric
or missing page token yields page 1, a numeric token past the last page
yields the last valid page, and every rendered page holds at most the
view's page size. -/
theorem c4_pagination_clamps (db : Db) (search : Option String) (k : Int) (page : PageParam)
    (hkc : (numPages 20 (childQueryset db search).length : Int) < k)
    (hks : (numPages 25 (sponsorQueryset db search).length : Int) < k)
    (hkd : (numPages 25 (departedQueryset db search).length : Int) < k)
    (hkp : (numPages 25 (orderBy (fun p => p.id) db.policies).length : Int) < k) :
    (child_list db search .nonNumeric = (childQueryset db search).take 20 ∧
     child_list db search .missing = (childQueryset db search).take 20 ∧
     child_list db search (.numeric k) =
       ((childQueryset db search).drop
         ((numPages 20 (childQueryset db search).length - 1) * 20)).take 20 ∧
     (child_list db search page).length ≤ 20) ∧
    (sponsor_list db search .nonNumeric = (sponsorQueryset db search).take 25 ∧
     sponsor_list db search .missing = (sponsorQueryset db search).take 25 ∧
     sponsor_list db search (.numeric k) =
       ((sponsorQueryset db search).drop
         ((numPages 25 (sponsorQueryset db search).length - 1) * 25)).take 25 ∧
     (sponsor_list db search page).length ≤ 25) ∧
    (sponsor_depature_list db search .nonNumeric = (departedQueryset db search).take 25 ∧
     sponsor_depature_list db search .missing = (departedQueryset db search).take 25 ∧
     sponsor_depature_list db search (.numeric k) =
       ((departedQueryset db search).drop
         ((numPages 25 (departedQueryset db search).length - 1) * 25)).take 25 ∧
     (sponsor_depature_list db search page).length ≤ 25) ∧
    (policy_list db .nonNumeric = (orderBy (fun p => p.id) db.policies).take 25 ∧
     policy_list db .missing = (orderBy (fun p => p.id) db.policies).take 25 ∧
     policy_list db (.numeric k) =
       ((orderBy (fun p => p.id) db.policies).drop
         ((numPages 25 (orderBy (fun p => p.id) db.policies).length - 1) * 25)).take 25 ∧
     (policy_list db page).length ≤ 25) :=
  ⟨⟨paginate_nonNumeric 20 _, paginate_missing 20 _,
    paginate_clamp 20 _ k (by omega) hkc, paginate_length_le _ _ _⟩,
   ⟨paginate_nonNumeric 25 _, paginate_missing 25 _,
    paginate_clamp 25 _ k (by omega) hks, paginate_length_le _ _ _⟩,
   ⟨paginate_nonNumeric 25 _, paginate_missing 25 _,
    paginate_clamp 25 _ k (by omega) hkd, paginate_length_le _ _ _⟩,
   ⟨paginate_nonNumeric 25 _, paginate_missing 25 _,
    paginate_clamp 25 _ k (by omega) hkp, paginate_length_le _ _ _⟩⟩

/-- C4 witness: with 30 children, 30 active and 30 departed sponsors
and 30 policies, page "abc" shows the first page and page 999 clamps to
the last page of every list (20 then 10 children, 25 then 5 rows for
the other lists). -/
theorem c4_pagination_clamps_witness :
    ((numPages 20 (childQueryset dbLists none).length : Int) < 999) ∧
    ((numPages 25 (sponsorQueryset dbLists none).length : Int) < 999) ∧
    ((numPages 25 (departedQueryset dbLists none).length : Int) < 999) ∧
    ((numPages 25 (orderBy (fun p => p.id) dbLists.policies).length : Int) < 999) ∧
    ((child_list dbLists none .nonNumeric = (childQueryset dbLists none).take 20 ∧
      child_list dbLists none .missing = (childQueryset dbLists none).take 20 ∧
      child_list dbLists none (.numeric 999) =
        ((childQueryset dbLists none).drop
          ((numPages 20 (childQueryset dbLists none).length - 1) * 20)).take 20 ∧
      (child_list dbLists none (.numeric 999)).length ≤ 20) ∧
     (sponsor_list dbLists none .nonNumeric = (sponsorQueryset dbLists none).take 25 ∧
      sponsor_list dbLists none .missing = (sponsorQueryset dbLists none).take 25 ∧
      sponsor_list dbLists none (.numeric 999) =
        ((sponsorQueryset dbLists none).drop
          ((numPages 25 (sponsorQueryset dbLists none).length - 1) * 25)).take 25 ∧
      (sponsor_list dbLists none (.numeric 999)).length ≤ 25) ∧
     (sponsor_depature_list dbLists none .nonNumeric = (departedQueryset dbLists none).take 25 ∧
      sponsor_depature_list dbLists none .missing = (departedQueryset dbLists none).take 25 ∧
      sponsor_depature_list dbLists none (.numeric 999) =
        ((departedQueryset dbLists none).drop
          ((numPages 25 (departedQueryset dbLists none).length - 1) * 25)).take 25 ∧
      (sponsor_depature_list dbLists none (.numeric 999)).length ≤ 25) ∧
     (policy_list dbLists .nonNumeric = (orderBy (fun p => p.id) dbLists.policies).take 25 ∧
      policy_list dbLists .missing = (orderBy (fun p => p.id) dbLists.policies).take 25 ∧
      policy_list dbLists (.numeric 999) =
        ((orderBy (fun p => p.id) dbLists.policies).drop
          ((numPages 25 (orderBy (fun p => p.id) dbLists.policies).length - 1) * 25)).take 25 ∧
      (policy_list dbLists (.numeric 999)).length ≤ 25)) ∧
    (child_list dbLists none .nonNumeric).length = 20 ∧
    (child_list dbLists none (.numeric 999)).length = 10 ∧
    (sponsor_list dbLists none (.numeric 999)).length = 5 ∧
    (sponsor_depature_list dbLists none (.numeric 999)).length = 5 ∧
    (policy_list dbLists (.numeric 999)).length = 5 :=
  ⟨by decide, by decide, by decide, by decide,
   c4_pagination_clamps dbLists none 999 (.numeric 999)
     (by decide) (by decide) (by decide) (by decide),
   by decide, by decide, by decide, by decide, by decide⟩

/-! ## Importer lemmas -/

lemma cellAt_lt (r : List Value) (i : Nat) (h : i < r.length) :
    cellAt r i = .ok (cellD r i) := by
  rcases hg : r[i]? with _ | v
  · exact absurd (List.getElem?_eq_none_iff.mp hg) (by omega)
  · simp [cellAt, cellD, hg]

lemma processRow_of_length (r : List Value) (h : 31 ≤ r.length) :
    processRow r =
      if cellD r 0 == .vnone then .ok none else .ok (some (rowToChildData r)) := by
  have h0 : 0 < r.length := by omega
  have h1 : 1 < r.length := by omega
  have h2 : 2 < r.length := by omega
  have h3 : 3 < r.length := by omega
  have h4 : 4 < r.length := by omega
  have h5 : 5 < r.length := by omega
  have h6 : 6 < r.length := by omega
  have h7 : 7 < r.length := by omega
  have h8 : 8 < r.length := by omega
  have h9 : 9 < r.length := by omega
  have h10 : 10 < r.length := by omega
  have h11 : 11 < r.length := by omega
  have h12 : 12 < r.length := by omega
  have h13 : 13 < r.length := by omega
  have h14 : 14 < r.length := by omega
  have h15 : 15 < r.length := by omega
  have h16 : 16 < r.length := by omega
  have h17 : 17 < r.length := by omega
  have h18 : 18 < r.length := by omega
  have h19 : 19 < r.length := by omega
  have h20 : 20 < r.length := by omega
  have h21 : 21 < r.length := by omega
  have h22 : 22 < r.length := by omega
  have h23 : 23 < r.length := by omega
  have h24 : 24 < r.length := by omega
  have h25 : 25 < r.length := by omega
  have h26 : 26 < r.length := by omega
  have h27 : 27 < r.length := by omega
  have h28 : 28 < r.length := by omega
  have h29 : 29 < r.length := by omega
  have h30 : 30 < r.length := by omega
  simp only [processRow, cellAt_lt r 0 h0, cellAt_lt r 1 h1, cellAt_lt r 2 h2,
    cellAt_lt r 3 h3, cellAt_lt r 4 h4, cellAt_lt r 5 h5, cellAt_lt r 6 h6,
    cellAt_lt r 7 h7, cellAt_lt r 8 h8, cellAt_lt r 9 h9, cellAt_lt r 10 h10,
    cellAt_lt r 11 h11, cellAt_lt r 12 h12, cellAt_lt r 13 h13, cellAt_lt r 14 h14,
    cellAt_lt r 15 h15, cellAt_lt r 16 h16, cellAt_lt r 17 h17, cellAt_lt r 18 h18,
    cellAt_lt r 19 h19, cellAt_lt r 20 h20, cellAt_lt r 21 h21, cellAt_lt r 22 h22,
    cellAt_lt r 23 h23, cellAt_lt r 24 h24, cellAt_lt r 25 h25, cellAt_lt r 26 h26,
    cellAt_lt r 27 h27, cellAt_lt r 28 h28, cellAt_lt r 29 h29, cellAt_lt r 30 h30]
  rfl

lemma processRow_short (r : List Value) (h : r.length < 31) :
    ∃ i, processRow r = .error (.indexError i) := by
  rcases r with _ | ⟨a0, r⟩
  · exact ⟨0, rfl⟩
  rcases r with _ | ⟨a1, r⟩
  · exact ⟨1, rfl⟩
  rcases r with _ | ⟨a2, r⟩
  · exact ⟨2, rfl⟩
  rcases r with _ | ⟨a3, r⟩
  · exact ⟨3, rfl⟩
  rcases r with _ | ⟨a4, r⟩
  · exact ⟨4, rfl⟩
  rcases r with _ | ⟨a5, r⟩
  · exact ⟨5, rfl⟩
  rcases r with _ | ⟨a6, r⟩
  · exact ⟨6, rfl⟩
  rcases r with _ | ⟨a7, r⟩
  · exact ⟨7, rfl⟩
  rcases r with _ | ⟨a8, r⟩
  · exact ⟨8, rfl⟩
  rcases r with _ | ⟨a9, r⟩
  · exact ⟨9, rfl⟩
  rcases r with _ | ⟨a10, r⟩
  · exact ⟨10, rfl⟩
  rcases r with _ | ⟨a11, r⟩
  · exact ⟨11, rfl⟩
  rcases r with _ | ⟨a12, r⟩
  · exact ⟨12, rfl⟩
  rcases r with _ | ⟨a13, r⟩
  · exact ⟨13, rfl⟩
  rcases r with _ | ⟨a14, r⟩
  · exact ⟨14, rfl⟩
  rcases r with _ | ⟨a15, r⟩
  · exact ⟨15, rfl⟩
  rcases r with _ | ⟨a16, r⟩
  · exact ⟨16, rfl⟩
  rcases r with _ | ⟨a17, r⟩
  · exact ⟨17, rfl⟩
  rcases r with _ | ⟨a18, r⟩
  · exact ⟨18, rfl⟩
  rcases r with _ | ⟨a19, r⟩
  · exact ⟨19, rfl⟩
  rcases r with _ | ⟨a20, r⟩
  · exact ⟨20, rfl⟩
  rcases r with _ | ⟨a21, r⟩
  · exact ⟨21, rfl⟩
  rcases r with _ | ⟨a22, r⟩
  · exact ⟨22, rfl⟩
  rcases r with _ | ⟨a23, r⟩
  · exact ⟨23, rfl⟩
  rcases r with _ | ⟨a24, r⟩
  · exact ⟨24, rfl⟩
  rcases r with _ | ⟨a25, r⟩
  · exact ⟨25, rfl⟩
  rcases r with _ | ⟨a26, r⟩
  · exact ⟨26, rfl⟩
  rcases r with _ | ⟨a27, r⟩
  · exact ⟨27, rfl⟩
  rcases r with _ | ⟨a28, r⟩
  · exact ⟨28, rfl⟩
  rcases r with _ | ⟨a29, r⟩
  · exact ⟨29, rfl⟩
  rcases r with _ | ⟨a30, r⟩
  · exact ⟨30, rfl⟩
  · simp at h
    omega

lemma length_le_maxWidth (sheet : List (List Value)) (r : List Value) (h : r ∈ sheet) :
    r.length ≤ maxWidth sheet := by
  induction sheet with
  | nil => cases h
  | cons s t ih =>
      rcases List.mem_cons.mp h with rfl | h'
      · simp [maxWidth]
      · calc r.length ≤ maxWidth t := ih h'
          _ ≤ maxWidth (s :: t) := by
              simp [maxWidth]

lemma iterRows_len (sheet : List (List Value)) (r : List Value) (h : r ∈ iterRows sheet) :
    r.length = maxWidth sheet := by
  simp only [iterRows, List.mem_map] at h
  rcases h with ⟨r0, hr0, rfl⟩
  have hle : r0.length ≤ maxWidth sheet :=
    length_le_maxWidth sheet r0 (List.mem_of_mem_drop hr0)
  simp [padRow]
  omega

lemma rowErr_indexError (r : List Value) (i : Nat)
    (h : rowErr r = some (.indexError i)) : processRow r = .error (.indexError i) := by
  rcases hpr : processRow r with e | o
  · simp only [rowErr, hpr] at h
    simp at h
    rw [h]
  · simp only [rowErr, hpr] at h
    rcases o with _ | d
    · simp at h
    · by_cases hc : childNotNullOk d
      · simp [hc] at h
      · simp [hc] at h

lemma createChild_eq (db : Db) (d : ChildData) (h : childNotNullOk d = true) :
    db.createChild d = .ok (db.appendChild d) := by
  simp [Db.createChild, h]

lemma cond_of_ite_nil {c : Prop} [Decidable c] {s : String}
    (h : (if c then ([] : List String) else [s]) = []) : c := by
  by_cases hc : c
  · exact hc
  · rw [if_neg hc] at h
    exact absurd h (List.cons_ne_nil _ _)

lemma not_vnone_of_fullNameOk (v : Value) (h : fullNameOk v = true) :
    (v == Value.vnone) = false := by
  cases v <;> simp_all [fullNameOk]

lemma not_vnone_of_choiceOk (opts : List String) (v : Value)
    (h : choiceOk opts true v = true) : (v == Value.vnone) = false := by
  cases v <;> simp_all [choiceOk]

lemma not_vnone_of_yearOk (y : Int) (v : Value) (h : yearOk y v = true) :
    (v == Value.vnone) = false := by
  cases v <;> simp_all [yearOk]

lemma createChild_ok_of_valid (today yearMax : Int) (db : Db) (d : ChildData)
    (h : childFieldErrors today yearMax d = []) :
    db.createChild d = .ok (db.appendChild d) := by
  rw [childFieldErrors] at h
  obtain ⟨h, h11⟩ := List.append_eq_nil.mp h
  obtain ⟨h, h10⟩ := List.append_eq_nil.mp h
  obtain ⟨h, h9⟩ := List.append_eq_nil.mp h
  obtain ⟨h, h8⟩ := List.append_eq_nil.mp h
  obtain ⟨h, h7⟩ := List.append_eq_nil.mp h
  obtain ⟨h, h6⟩ := List.append_eq_nil.mp h
  obtain ⟨h, h5⟩ := List.append_eq_nil.mp h
  obtain ⟨h, h4⟩ := List.append_eq_nil.mp h
  obtain ⟨h, h3⟩ := List.append_eq_nil.mp h
  obtain ⟨h1, h2⟩ := List.append_eq_nil.mp h
  apply createChild_eq
  simp [childNotNullOk,
        not_vnone_of_fullNameOk _ (cond_of_ite_nil h1),
        not_vnone_of_choiceOk _ _ (cond_of_ite_nil h2),
        not_vnone_of_choiceOk _ _ (cond_of_ite_nil h5),
        not_vnone_of_choiceOk _ _ (cond_of_ite_nil h6),
        not_vnone_of_choiceOk _ _ (cond_of_ite_nil h7),
        not_vnone_of_choiceOk _ _ (cond_of_ite_nil h8),
        not_vnone_of_yearOk _ _ (cond_of_ite_nil h10),
        not_vnone_of_choiceOk _ _ (cond_of_ite_nil h11)]

lemma importRows_no_err (rows : List (List Value)) (db : Db)
    (hok : ∀ r ∈ rows, (rowErr r).isNone = true) :
    (importRows rows db).2 = none := by
  induction rows generalizing db with
  | nil => simp [importRows]
  | cons r rest ih =>
      have hr : (rowErr r).isNone = true := hok r (by simp)
      have hrest : ∀ x ∈ rest, (rowErr x).isNone = true := fun x hx => hok x (by simp [hx])
      rcases hpr : processRow r with e | o
      · simp [rowErr, hpr] at hr
      · rcases o with _ | d
        · simp only [importRows, hpr]
          exact ih db hrest
        · by_cases hc : childNotNullOk d
          · simp only [importRows, hpr, createChild_eq db d hc]
            exact ih (db.appendChild d) hrest
          · simp [rowErr, hpr, hc] at hr

lemma importRows_append_err (pre : List (List Value)) (bad : List Value)
    (post : List (List Value)) (db : Db) (e : ImpError)
    (hpre : ∀ r ∈ pre, (rowErr r).isNone = true) (hbad : rowErr bad = some e) :
    importRows (pre ++ bad :: post) db = ((importRows pre db).1, some e) := by
  induction pre generalizing db with
  | nil =>
      rcases hpr : processRow bad with e' | o
      · simp only [rowErr, hpr] at hbad
        simp at hbad
        simp [importRows, hpr, hbad]
      · simp only [rowErr, hpr] at hbad
        rcases o with _ | d
        · simp at hbad
        · by_cases hc : childNotNullOk d
          · simp [hc] at hbad
          · simp only [hc, Bool.false_eq_true, reduceIte] at hbad
            simp at hbad
            simp [importRows, hpr, Db.createChild, hc, ← hbad]
  | cons r rest ih =>
      have hr : (rowErr r).isNone = true := hpre r (by simp)
      have hrest : ∀ x ∈ rest, (rowErr x).isNone = true := fun x hx => hpre x (by simp [hx])
      rcases hpr : processRow r with e' | o
      · simp [rowErr, hpr] at hr
      · rcases o with _ | d
        · simp only [List.cons_append, importRows, hpr]
          exact ih db hrest
        · by_cases hc : childNotNullOk d
          · simp only [List.cons_append, importRows, hpr, createChild_eq db d hc]
            exact ih (db.appendChild d) hrest
          · simp [rowErr, hpr, hc] at hr

lemma importRows_children_extend (rows : List (List Value)) (db : Db) :
    ∃ l, (importRows rows db).1.children = db.children ++ l := by
  induction rows generalizing db with
  | nil => exact ⟨[], by simp [importRows]⟩
  | cons r rest ih =>
      rcases hpr : processRow r with e | o
      · exact ⟨[], by simp [importRows, hpr]⟩
      · rcases o with _ | d
        · simpa [importRows, hpr] using ih db
        · by_cases hc : childNotNullOk d
          · obtain ⟨l, hl⟩ := ih (db.appendChild d)
            refine ⟨{ id := db.nextChildId, data := d } :: l, ?_⟩
            simp only [importRows, hpr, createChild_eq db d hc]
            rw [hl]
            simp [Db.appendChild]
          · refine ⟨[], ?_⟩
            simp [importRows, hpr, Db.createChild, hc]

/-! ## C7: positional column mapping and silent skip -/

/-- C3 counterexample: in sheetRollback the first data row creates a
child during processing (the loop state holds one record when the second
data row's create raises IntegrityError), yet the import leaves the
database empty - the @transaction.atomic decorator on import_data rolls
the earlier row back instead of keeping it committed. -/
theorem c3_import_rollback_counterexample :
    (importRows [fullRow] Db.empty).1.children.length = 1 ∧
    process_and_import_data sheetRollback Db.empty
      = ((importRows [fullRow] Db.empty).1, some .integrityError) ∧
    import_data Db.empty true sheetRollback = (Db.empty, .errorMsg .integrityError) ∧
    (import_data Db.empty true sheetRollback).1.children = [] := by
  decide

/-- C3 (amended): when processing a data row raises an error, the rows
behind it are never processed and the error is surfaced to the caller,
but the rows created before it do not remain: the batch leaves the
database unchanged, because a create-raised IntegrityError marks the
enclosing transaction.atomic for rollback, and an IndexError can only
strike the first data row - openpyxl pads every row to the sheet's
max_column, so a sheet narrower than 31 columns fails before anything
is created. -/
theorem c3_import_abort_rolls_back (db : Db) (sheet : List (List Value))
    (pre post : List (List Value)) (bad : List Value) (e : ImpError)
    (hsplit : iterRows sheet = pre ++ bad :: post)
    (hpre : ∀ r ∈ pre, (rowErr r).isNone = true)
    (hbad : rowErr bad = some e) :
    process_and_import_data sheet db = ((importRows pre db).1, some e) ∧
    import_data db true sheet = (db, .errorMsg e) := by
  have happ := importRows_append_err pre bad post db e hpre hbad
  have hproc : process_and_import_data sheet db = ((importRows pre db).1, some e) := by
    unfold process_and_import_data
    rw [hsplit, happ]
  refine ⟨hproc, ?_⟩
  rcases e with i | _
  · -- IndexError: the atomic block commits, but no row was created:
    -- pre is empty, since all padded rows share one width below 31.
    have hbadmem : bad ∈ iterRows sheet := by
      rw [hsplit]
      exact List.mem_append.mpr (Or.inr (by simp))
    have hbadlen : bad.length < 31 := by
      by_contra hge
      have := processRow_of_length bad (by omega)
      rw [rowErr_indexError bad i hbad] at this
      cases hb : cellD bad 0 == Value.vnone <;> rw [hb] at this <;> simp at this
    have hprenil : pre = [] := by
      rcases hp : pre with _ | ⟨r0, pre'⟩
      · rfl
      · exfalso
        have hr0mem : r0 ∈ iterRows sheet := by
          rw [hsplit, hp]
          exact List.mem_append.mpr (Or.inl (by simp))
        have hlen0 : r0.length = bad.length := by
          rw [iterRows_len sheet r0 hr0mem, iterRows_len sheet bad hbadmem]
        obtain ⟨j, hj⟩ := processRow_short r0 (by omega)
        have := hpre r0 (by rw [hp]; simp)
        simp [rowErr, hj] at this
    subst hprenil
    simp only [import_data, hproc]
    simp [errMarksRollback, importRows]
  · -- IntegrityError: the marked transaction rolls the batch back.
    simp only [import_data, hproc]
    simp [errMarksRollback]

/-- C3 witness: a good first data row, a second data row missing its
required year_enrolled, and one more row behind: the loop stops at the
second row, the error is surfaced, and the final database is the
initial one. -/
theorem c3_import_abort_rolls_back_witness :
    (iterRows sheetRollback = [fullRow] ++ nullYearRow :: [fullRow]) ∧
    (∀ r ∈ [fullRow], (rowErr r).isNone = true) ∧
    rowErr nullYearRow = some .integrityError ∧
    (process_and_import_data sheetRollback Db.empty
       = ((importRows [fullRow] Db.empty).1, some .integrityError) ∧
     import_data Db.empty true sheetRollback = (Db.empty, .errorMsg .integrityError)) :=
  ⟨by decide, by decide, by decide,
   c3_import_abort_rolls_back Db.empty sheetRollback [fullRow] [fullRow] nullYearRow
     .integrityError (by decide) (by decide) (by decide)⟩

/-! ## C10: the bulk importer bypasses the field validators -/

/-- C10: the importer creates a child record from a row whose values
violate the declared validators (digits in full_name, date_of_birth
before 1900-01-01, year_enrolled outside the bounds); the same values
fail the form-level validation that guards register_child. -/
theorem c10_import_bypasses_validators :
    (process_and_import_data [[], badRow] Db.empty).2 = none ∧
    (process_and_import_data [[], badRow] Db.empty).1.children.map (fun c => c.data)
      = [rowToChildData badRow] ∧
    (rowToChildData badRow).full_name = .vstr "J0hn Doe" ∧
    (rowToChildData badRow).date_of_birth = .vdate (ordinal1900 - 100) ∧
    (rowToChildData badRow).year_enrolled = .vint 1999 ∧
    fullNameOk (.vstr "J0hn Doe") = false ∧
    dobOk 739000 (.vdate (ordinal1900 - 100)) = false ∧
    yearOk 2026 (.vint 1999) = false ∧
    "full_name" ∈ childFieldErrors 739000 2026 (rowToChildData badRow) ∧
    "date_of_birth" ∈ childFieldErrors 739000 2026 (rowToChildData badRow) ∧
    "year_enrolled" ∈ childFieldErrors 739000 2026 (rowToChildData badRow) := by
  decide

end Perpetualx
